import Mathlib

/-!
Shallow embedding of the media recording subsystem:
`source/core/woogeen_base/MediaFileOut.cpp` (frame ingestion, muxing state
machine, container writer, teardown) and
`source/core/mcu/media/FakedVideoFrameDecoder.h` (compositor slot adapter).

Machine integers are modelled as `Nat`; byte buffers as `List Nat`;
fallible paths (the C `assert`) as `Option`.  Calls into the opaque
muxing backend (libav) and to the event collaborator are recorded as an
event trace.  Per-tick outcomes of the backend (`avio_open`,
`avformat_write_header`) and of stream allocation (`avformat_new_stream`)
are environment booleans passed to each operation.
-/

namespace woogeen_base

/-- Frame formats recognized at the ingestion boundary (`FRAME_FORMAT_*`). -/
inductive FrameFormat where
  | FRAME_FORMAT_UNKNOWN
  | FRAME_FORMAT_I420
  | FRAME_FORMAT_VP8
  | FRAME_FORMAT_H264
  | FRAME_FORMAT_PCMU
  | FRAME_FORMAT_OPUS
  deriving DecidableEq, Repr

/-- libav codec identifiers used by this excerpt (`AV_CODEC_ID_*`). -/
inductive AVCodecID where
  | AV_CODEC_ID_VP8
  | AV_CODEC_ID_H264
  | AV_CODEC_ID_PCM_MULAW
  | AV_CODEC_ID_OPUS
  deriving DecidableEq, Repr

/-- `frameFormat2VideoCodecID` from MediaFileOut.cpp. -/
def frameFormat2VideoCodecID : FrameFormat → AVCodecID
  | .FRAME_FORMAT_VP8 => .AV_CODEC_ID_VP8
  | .FRAME_FORMAT_H264 => .AV_CODEC_ID_H264
  | _ => .AV_CODEC_ID_VP8

/-- `frameFormat2AudioCodecID` from MediaFileOut.cpp. -/
def frameFormat2AudioCodecID : FrameFormat → AVCodecID
  | .FRAME_FORMAT_PCMU => .AV_CODEC_ID_PCM_MULAW
  | .FRAME_FORMAT_OPUS => .AV_CODEC_ID_OPUS
  | _ => .AV_CODEC_ID_PCM_MULAW

/-- `AVMEDIA_TYPE_*` of the streams created here. -/
inductive MediaType where
  | AVMEDIA_TYPE_VIDEO
  | AVMEDIA_TYPE_AUDIO'
  deriving DecidableEq, Repr

/-- Sample formats assigned in `addAudioStream` (`AV_SAMPLE_FMT_*`). -/
inductive SampleFormat where
  | AV_SAMPLE_FMT_FLT
  | AV_SAMPLE_FMT_S16
  | AV_SAMPLE_FMT_NONE
  deriving DecidableEq, Repr

/-- The fields of `AVCodecContext` that `addVideoStream` / `addAudioStream`
set: codec id, media type, video geometry, audio channel/sample-rate
parameters and the sample format. -/
structure AVCodecContext where
  codec_id : AVCodecID
  codec_type : MediaType
  width : Nat := 0
  height : Nat := 0
  channels : Nat := 0
  sample_rate : Nat := 0
  sample_fmt : SampleFormat := .AV_SAMPLE_FMT_NONE
  deriving DecidableEq, Repr

/-- An output stream descriptor (`AVStream`): its codec context, its index
in the container (assigned by `avformat_new_stream` in creation order) and
its time base as a rational number of seconds per tick (num, den).  The
time base value itself is assigned by the opaque muxing backend. -/
structure AVStream where
  codec : AVCodecContext
  index : Nat
  time_base : Nat × Nat := (1, 1000)
  deriving DecidableEq, Repr

/-- `additionalInfo.video` of a frame. -/
structure VideoInfo where
  width : Nat
  height : Nat
  deriving DecidableEq, Repr

/-- `additionalInfo.audio` of a frame. -/
structure AudioInfo where
  channels : Nat
  sampleRate : Nat
  isRtpPacket : Bool
  deriving DecidableEq, Repr

/-- A frame arriving at the ingestion boundary (`woogeen_base::Frame`):
format tag, payload bytes (whose list length plays the role of
`frame.length`) and the per-media-type metadata union, modelled as two
fields. -/
structure Frame where
  format : FrameFormat
  payload : List Nat
  video : VideoInfo := ⟨0, 0⟩
  audio : AudioInfo := ⟨0, 0, false⟩
  deriving DecidableEq, Repr

/-- Modelled from the spec: `RTPHeader::getHeaderLength` from rtputils.h,
which is not part of the excerpt.  Standard fixed+variable RTP header
length rules: 12 fixed bytes, plus 4 bytes per CSRC entry (the low nibble
of the first byte), plus, when the extension bit (bit 4 of the first
byte) is set, a 4-byte extension header and 4 bytes per extension word
(the 16-bit big-endian count found just after the CSRC list). -/
def getHeaderLength (payload : List Nat) : Nat :=
  let b0 := payload.headD 0
  let cc := b0 % 16
  let base := 12 + 4 * cc
  if (b0 / 16) % 2 = 1 then
    let hi := payload.getD (base + 2) 0
    let lo := payload.getD (base + 3) 0
    base + 4 + 4 * (hi * 256 + lo)
  else
    base

/-- Session lifecycle states (`AVStreamOut::Context_*`). -/
inductive Status where
  | Context_EMPTY
  | Context_READY
  | Context_ERROR
  deriving DecidableEq, Repr

/-- Observable calls into the muxing backend and the event collaborator,
recorded as a trace.  `avioOpen` / `writeHeaderCall` carry the success of
the attempt. -/
inductive Event where
  | avioOpen (ok : Bool)
  | writeHeaderCall (ok : Bool)
  | notifyAsyncEvent (category message : String)
  | writeVideoPacket (payload : List Nat)
  | writeAudioPacket (payload : List Nat)
  | timerStop
  | writeTrailer
  | codecClose (video : Bool)
  | avioClose
  | freeContext
  deriving DecidableEq, Repr

/-- The mutable session state of one `MediaFileOut`.  `nofile` is the
`AVFMT_NOFILE` bit of the guessed output format, fixed at construction;
`m_context` records whether the format context is still allocated
(`m_context != NULL`).  Queues hold the enqueued payload buffers in FIFO
order. -/
structure State where
  m_videoStream : Option AVStream
  m_audioStream : Option AVStream
  m_videoQueue : List (List Nat)
  m_audioQueue : List (List Nat)
  m_avTrailerNeeded : Bool
  m_videoFrameFormat : FrameFormat
  m_audioFrameFormat : FrameFormat
  m_status : Status
  m_context : Bool
  nofile : Bool
  deriving DecidableEq, Repr

/-- The state established by the `MediaFileOut` constructor: empty queues,
no streams, allocated context, no trailer needed.  The initial
`Context_EMPTY` status is set by the `AVStreamOut` base class, outside the
excerpt but fixed by the spec ("Empty is initial"). -/
def initState (nofile : Bool) : State :=
  { m_videoStream := none
    m_audioStream := none
    m_videoQueue := []
    m_audioQueue := []
    m_avTrailerNeeded := false
    m_videoFrameFormat := .FRAME_FORMAT_UNKNOWN
    m_audioFrameFormat := .FRAME_FORMAT_UNKNOWN
    m_status := .Context_EMPTY
    m_context := true
    nofile := nofile }

/-- Number of streams already in the container, which is the index
`avformat_new_stream` gives the next stream. -/
def nbStreams (s : State) : Nat :=
  (if s.m_videoStream.isSome then 1 else 0) + (if s.m_audioStream.isSome then 1 else 0)

/-- `MediaFileOut::addVideoStream`.  `allocOk` is whether
`avformat_new_stream` succeeds; on failure the status flips to
`Context_ERROR` and `false` is returned. -/
def addVideoStream (allocOk : Bool) (codec_id : AVCodecID) (width height : Nat)
    (s : State) : State × Bool :=
  if allocOk then
    let c : AVCodecContext :=
      { codec_id := codec_id, codec_type := .AVMEDIA_TYPE_VIDEO,
        width := width, height := height }
    ({ s with m_videoStream := some { codec := c, index := nbStreams s } }, true)
  else
    ({ s with m_status := .Context_ERROR }, false)

/-- `MediaFileOut::addAudioStream`.  Sets the codec-specific sample format
(FLT for OPUS, S16 otherwise); failure flips the status to
`Context_ERROR`. -/
def addAudioStream (allocOk : Bool) (codec_id : AVCodecID) (nbChannels sampleRate : Nat)
    (s : State) : State × Bool :=
  if allocOk then
    let c : AVCodecContext :=
      { codec_id := codec_id, codec_type := .AVMEDIA_TYPE_AUDIO',
        channels := nbChannels, sample_rate := sampleRate,
        sample_fmt := if codec_id = .AV_CODEC_ID_OPUS
                      then .AV_SAMPLE_FMT_FLT else .AV_SAMPLE_FMT_S16 }
    ({ s with m_audioStream := some { codec := c, index := nbStreams s } }, true)
  else
    ({ s with m_status := .Context_ERROR }, false)

/-- Lines 151-161 of `MediaFileOut::onFrame`: the unconditional audio
enqueue at the end of the PCMU/OPUS case.  When the frame still carries
RTP framing the header length is stripped from the front; the C
`assert(length >= headerLength)` is modelled by returning `none` when it
fails. -/
def enqueueAudio (frame : Frame) (s : State) : Option State :=
  if frame.audio.isRtpPacket then
    let headerLength := getHeaderLength frame.payload
    if headerLength ≤ frame.payload.length then
      some { s with m_audioQueue := s.m_audioQueue ++ [frame.payload.drop headerLength] }
    else
      none
  else
    some { s with m_audioQueue := s.m_audioQueue ++ [frame.payload] }

/-- `MediaFileOut::onFrame`.  Early return when already in the terminal
error state; the VP8/H264 case lazily creates the video stream (only for
frames carrying geometry) and enforces codec consistency; the PCMU/OPUS
case creates the audio stream only when a video stream already exists,
enforces codec consistency, and otherwise falls through to the audio
enqueue; any other format is fatal.  `none` signals the failed C assert
in the RTP-stripping path. -/
def onFrame (allocOk : Bool) (frame : Frame) (s : State) : Option State :=
  if s.m_status = .Context_ERROR then
    some s
  else
    match frame.format with
    | .FRAME_FORMAT_VP8 | .FRAME_FORMAT_H264 =>
      match s.m_videoStream with
      | none =>
        if frame.video.width > 0 && frame.video.height > 0 then
          let r := addVideoStream allocOk (frameFormat2VideoCodecID frame.format)
                     frame.video.width frame.video.height s
          let s2 := if r.2 then { r.1 with m_videoFrameFormat := frame.format } else r.1
          some { s2 with m_videoQueue := s2.m_videoQueue ++ [frame.payload] }
        else
          some s
      | some vs =>
        if vs.codec.codec_id ≠ frameFormat2VideoCodecID frame.format then
          some { s with m_status := .Context_ERROR }
        else
          some { s with m_videoQueue := s.m_videoQueue ++ [frame.payload] }
    | .FRAME_FORMAT_PCMU | .FRAME_FORMAT_OPUS =>
      if s.m_videoStream.isSome && !s.m_audioStream.isSome then
        let r := addAudioStream allocOk (frameFormat2AudioCodecID frame.format)
                   frame.audio.channels frame.audio.sampleRate s
        let s2 := if r.2 then { r.1 with m_audioFrameFormat := frame.format } else r.1
        enqueueAudio frame s2
      else
        match s.m_audioStream with
        | some as_ =>
          if as_.codec.codec_id ≠ frameFormat2AudioCodecID frame.format then
            some { s with m_status := .Context_ERROR }
          else
            enqueueAudio frame s
        | none =>
          enqueueAudio frame s
    | _ =>
      some { s with m_status := .Context_ERROR }

/-- An encoded frame popped from a `MediaFrameQueue` (payload bytes, size,
timestamp in milliseconds of the ingestion clock). -/
structure EncodedFrame where
  m_payloadData : List Nat
  m_payloadSize : Nat
  m_timeStamp : Nat
  deriving DecidableEq, Repr

/-- The packet fields `writeVideoFrame` / `writeAudioFrame` fill in before
submitting to `av_write_frame`. -/
structure AVPacket where
  data : List Nat
  size : Nat
  pts : Nat
  stream_index : Nat
  deriving DecidableEq, Repr

/-- `MediaFileOut::writeVideoFrame`: builds the packet from the encoded
frame, converts the millisecond timestamp into the stream's time base
(`pts = timeStamp / (av_q2d(time_base) * 1000)`, i.e. timeStamp * den /
(num * 1000)), and sets `stream_index = 0`. -/
def writeVideoFrame (videoStream : AVStream) (f : EncodedFrame) : AVPacket :=
  { data := f.m_payloadData
    size := f.m_payloadSize
    pts := f.m_timeStamp * videoStream.time_base.2 / (videoStream.time_base.1 * 1000)
    stream_index := 0 }

/-- `MediaFileOut::writeAudioFrame`: same packet construction against the
audio stream's time base, with `stream_index = 1`. -/
def writeAudioFrame (audioStream : AVStream) (f : EncodedFrame) : AVPacket :=
  { data := f.m_payloadData
    size := f.m_payloadSize
    pts := f.m_timeStamp * audioStream.time_base.2 / (audioStream.time_base.1 * 1000)
    stream_index := 1 }

/-- The per-tick queue drain of `onTimeout`: the audio queue is popped to
empty first, then the video queue, each in FIFO order, every popped
payload written through the container writer. -/
def drainEvents (s : State) : List Event :=
  s.m_audioQueue.map (fun p => Event.writeAudioPacket p)
    ++ s.m_videoQueue.map (fun p => Event.writeVideoPacket p)

/-- `MediaFileOut::onTimeout`.  `openOk` / `headerOk` are the outcomes of
`avio_open` / `avformat_write_header` for this tick.  In `Context_EMPTY`
with both streams present it opens the sink (unless the format is
NOFILE), writes the header, marks the trailer flag and moves to
`Context_READY`, then falls through to the drain; failures move to
`Context_ERROR` with one notification and return.  In `Context_READY` it
just drains.  In `Context_ERROR` it notifies and returns. -/
def onTimeout (openOk headerOk : Bool) (s : State) : State × List Event :=
  match s.m_status with
  | .Context_EMPTY =>
    if s.m_audioStream.isSome && s.m_videoStream.isSome then
      if !s.nofile && !openOk then
        ({ s with m_status := .Context_ERROR },
         [Event.avioOpen false,
          Event.notifyAsyncEvent "RecordingStream" "output file does not exist or cannot be opened for write"])
      else
        let openEvs : List Event := if s.nofile then [] else [Event.avioOpen true]
        if !headerOk then
          ({ s with m_status := .Context_ERROR },
           openEvs ++ [Event.writeHeaderCall false,
                       Event.notifyAsyncEvent "RecordingStream" "write file header error"])
        else
          ({ s with m_avTrailerNeeded := true, m_status := .Context_READY,
                    m_audioQueue := [], m_videoQueue := [] },
           openEvs ++ [Event.writeHeaderCall true] ++ drainEvents s)
    else
      (s, [])
  | .Context_READY =>
    ({ s with m_audioQueue := [], m_videoQueue := [] }, drainEvents s)
  | .Context_ERROR =>
    (s, [Event.notifyAsyncEvent "RecordingStream" "context initialization failed"])

/-- `MediaFileOut::close` (also run by the destructor): stop the timer;
write the trailer only if the context is live and the trailer flag is
set; close the video and audio codec contexts whenever the stream
pointers are non-null (they are never nulled); close the sink and free
the context when the context is live, then null it.  Each guard mirrors
one `if` of the source. -/
def close (s : State) : State × List Event :=
  (( { s with m_context := false } : State),
   [Event.timerStop]
     ++ (if s.m_context && s.m_avTrailerNeeded then [Event.writeTrailer] else [])
     ++ (if s.m_videoStream.isSome then [Event.codecClose true] else [])
     ++ (if s.m_audioStream.isSome then [Event.codecClose false] else [])
     ++ (if s.m_context then
           (if !s.nofile then [Event.avioClose] else []) ++ [Event.freeContext]
         else []))

/-- One externally triggered operation on a session, with its environment
outcomes. -/
inductive Step where
  | frame (allocOk : Bool) (f : Frame)
  | tick (openOk headerOk : Bool)
  | closeCall
  deriving Repr

/-- Run one step, returning the new state and the emitted events; `none`
when the step aborts on the failed C assert. -/
def runStep : Step → State → Option (State × List Event)
  | .frame a f, s => (onFrame a f s).map (fun s' => (s', []))
  | .tick o h, s => some (onTimeout o h s)
  | .closeCall, s => some (close s)

/-- Run a sequence of steps from a state, concatenating the event
traces. -/
def run : List Step → State → Option (State × List Event)
  | [], s => some (s, [])
  | st :: rest, s =>
    match runStep st s with
    | none => none
    | some (s', evs) =>
      match run rest s' with
      | none => none
      | some (s'', evs') => some (s'', evs ++ evs')

/-- A session state reachable from the constructor state by some sequence
of frames, ticks and close calls. -/
def ReachableFrom (nofile : Bool) (s : State) : Prop :=
  ∃ ss evs, run ss (initState nofile) = some (s, evs)

/-- Number of header-write attempts (`avformat_write_header` calls) in a
trace. -/
def headerWrites (evs : List Event) : Nat :=
  evs.countP (fun e => match e with | .writeHeaderCall _ => true | _ => false)

end woogeen_base

namespace mcu

/-- Calls a `FakedVideoFrameDecoder` makes on its compositor
collaborator. -/
inductive CompositorCall where
  | activateInput (slot : Int)
  | deActivateInput (slot : Int)
  | pushInput (slot : Int)
  deriving DecidableEq, Repr

/-- The member state of a `FakedVideoFrameDecoder`: the bound slot (the
compositor reference is the call target, left implicit). -/
structure DecoderState where
  m_slot : Int
  deriving DecidableEq, Repr

/-- The `FakedVideoFrameDecoder` constructor: stores the slot and calls
`activateInput(m_slot)` on the compositor. -/
def construct (slot : Int) : DecoderState × List CompositorCall :=
  (⟨slot⟩, [CompositorCall.activateInput slot])

/-- The `FakedVideoFrameDecoder` destructor: calls
`deActivateInput(m_slot)` on the compositor. -/
def destruct (d : DecoderState) : List CompositorCall :=
  [CompositorCall.deActivateInput d.m_slot]

/-- `FakedVideoFrameDecoder::onFrame`: forwards the already-decoded frame
into the bound slot with `pushInput(m_slot, frame)`. -/
def onFrameCalls (d : DecoderState) : List CompositorCall :=
  [CompositorCall.pushInput d.m_slot]

/-- The full compositor-call trace of one adapter's lifetime: construct,
then `n` onFrame calls, then destruct. -/
def lifetime (slot : Int) (n : Nat) : List CompositorCall :=
  (construct slot).2
    ++ (List.replicate n (onFrameCalls (construct slot).1)).flatten
    ++ destruct (construct slot).1

end mcu

namespace woogeen_base

/-! ### Concrete sample values used by witnesses and counterexamples -/

/-- A VP8 video frame carrying geometry. -/
def vFrameVP8 : Frame :=
  { format := .FRAME_FORMAT_VP8, payload := [1, 2, 3], video := ⟨640, 480⟩ }

/-- An H264 video frame carrying geometry. -/
def vFrameH264 : Frame :=
  { format := .FRAME_FORMAT_H264, payload := [4, 5], video := ⟨640, 480⟩ }

/-- A PCMU audio frame without RTP framing. -/
def aFramePCMU : Frame :=
  { format := .FRAME_FORMAT_PCMU, payload := [10, 20, 30], audio := ⟨2, 48000, false⟩ }

/-- An OPUS audio frame without RTP framing. -/
def aFrameOPUS : Frame :=
  { format := .FRAME_FORMAT_OPUS, payload := [7, 8], audio := ⟨2, 48000, false⟩ }

/-- A PCMU audio frame still carrying a 12-byte RTP header (no CSRC, no
extension) in front of four payload bytes. -/
def aFrameRtp : Frame :=
  { format := .FRAME_FORMAT_PCMU
    payload := [0x80, 0, 0, 0, 0, 0, 0, 0, 0, 0, 0, 0, 101, 102, 103, 104]
    audio := ⟨1, 8000, true⟩ }

/-- The session state after the first VP8 frame (video stream fixed). -/
def sVP8 : State := (onFrame true vFrameVP8 (initState false)).getD (initState false)

/-- The video stream descriptor `sVP8` holds. -/
def vsVP8 : AVStream :=
  { codec := { codec_id := .AV_CODEC_ID_VP8, codec_type := .AVMEDIA_TYPE_VIDEO,
               width := 640, height := 480 }
    index := 0 }

/-- The session state after a VP8 frame and a PCMU frame (both streams
fixed). -/
def sBoth : State :=
  (onFrame true aFramePCMU sVP8).getD (initState false)

/-- The audio stream descriptor `sBoth` holds. -/
def asPCMU : AVStream :=
  { codec := { codec_id := .AV_CODEC_ID_PCM_MULAW, codec_type := .AVMEDIA_TYPE_AUDIO',
               channels := 2, sample_rate := 48000, sample_fmt := .AV_SAMPLE_FMT_S16 }
    index := 1 }

/-- `sBoth` after one successful tick: header written, `Context_READY`,
trailer needed. -/
def sReady : State := (onTimeout true true sBoth).1

/-- A session in the terminal error state. -/
def errState : State := { initState false with m_status := .Context_ERROR }

/-- The video stream descriptor of `sVP8` but carrying container index 1
instead of its creation index 0: used to show the writer ignores the
descriptor's index. -/
def oddStream : AVStream :=
  { codec := { codec_id := .AV_CODEC_ID_VP8, codec_type := .AVMEDIA_TYPE_VIDEO,
               width := 640, height := 480 }
    index := 1 }

/-- A concrete encoded frame popped from a queue. -/
def sampleEncoded : EncodedFrame :=
  { m_payloadData := [1, 2], m_payloadSize := 2, m_timeStamp := 1000 }

/-- A step sequence: both first frames, a successful tick, one more tick. -/
def stepsW : List Step :=
  [.frame true vFrameVP8, .frame true aFramePCMU, .tick true true, .tick true true]

/-- The state and event trace produced by running `stepsW` from the
constructor state. -/
def runW : State × List Event := (run stepsW (initState false)).getD (initState false, [])

/-- The session state after a PCMU frame arrives before any video frame. -/
def sAud : State := (onFrame true aFramePCMU (initState false)).getD (initState false)

/-! ### Claims about `onFrame` -/

/-- Claim C1: once a stream's codec has been fixed by the first frame of
that media type, a frame of the same media type with a different codec
moves the session to the terminal error state and changes nothing else:
the frame is not enqueued onto either queue and both stream descriptors
(codec id, geometry, audio parameters) are untouched, as the result state
is exactly the input state with only `m_status` set to error. -/
theorem codec_mismatch_error (a : Bool) (f : Frame) (s : State)
    (hs : s.m_status ≠ .Context_ERROR) :
    (∀ vs, s.m_videoStream = some vs →
      (f.format = .FRAME_FORMAT_VP8 ∨ f.format = .FRAME_FORMAT_H264) →
      vs.codec.codec_id ≠ frameFormat2VideoCodecID f.format →
      onFrame a f s = some { s with m_status := .Context_ERROR }) ∧
    (∀ as_, s.m_audioStream = some as_ →
      (f.format = .FRAME_FORMAT_PCMU ∨ f.format = .FRAME_FORMAT_OPUS) →
      as_.codec.codec_id ≠ frameFormat2AudioCodecID f.format →
      onFrame a f s = some { s with m_status := .Context_ERROR }) := by
  constructor
  · intro vs hv hf hne
    rcases hf with hf | hf <;> rw [hf] at hne <;>
      simp [onFrame, hs, hv, hf, hne]
  · intro as_ ha hf hne
    rcases hf with hf | hf <;> rw [hf] at hne <;>
      simp [onFrame, hs, ha, hf, hne]

/-- Witness for C1 at concrete inputs: a session whose video codec is
fixed to VP8 receives an H264 frame and errors out without mutation;
a session whose audio codec is fixed to PCMU receives an OPUS frame and
errors out without mutation. -/
theorem codec_mismatch_error_witness :
    (sVP8.m_status ≠ .Context_ERROR ∧
      onFrame true vFrameH264 sVP8 = some { sVP8 with m_status := .Context_ERROR }) ∧
    (sBoth.m_status ≠ .Context_ERROR ∧
      onFrame true aFrameOPUS sBoth = some { sBoth with m_status := .Context_ERROR }) :=
  ⟨⟨by decide,
    (codec_mismatch_error true vFrameH264 sVP8 (by decide)).1 vsVP8 (by decide)
      (Or.inr rfl) (by decide)⟩,
   ⟨by decide,
    (codec_mismatch_error true aFrameOPUS sBoth (by decide)).2 asPCMU (by decide)
      (Or.inr rfl) (by decide)⟩⟩

/-- Claim C7: a frame of any format arriving while the session is in the
terminal error state is a no-op: the state (streams, queues, status) is
returned unchanged. -/
theorem onFrame_error_noop (a : Bool) (f : Frame) (s : State)
    (hs : s.m_status = .Context_ERROR) :
    onFrame a f s = some s := by
  unfold onFrame
  rw [if_pos hs]

/-- Witness for C7: a VP8 frame fed to an errored session leaves it
unchanged. -/
theorem onFrame_error_noop_witness :
    errState.m_status = .Context_ERROR ∧ onFrame true vFrameVP8 errState = some errState :=
  ⟨by decide, onFrame_error_noop true vFrameVP8 errState (by decide)⟩

/-- Claim C5: for an audio frame flagged as carrying RTP framing with
payload length `L` and computed header length `H`: when `H ≤ L` the
enqueued payload is the suffix starting at offset `H` and has length
`L - H`; when `H > L` the hard assertion fires (modelled as `none`);
an unflagged frame is enqueued unmodified.  The `hmatch` hypothesis says
the frame does not hit the codec-mismatch discard of C1. -/
theorem rtp_strip_correct (a : Bool) (f : Frame) (s : State)
    (hs : s.m_status ≠ .Context_ERROR)
    (hf : f.format = .FRAME_FORMAT_PCMU ∨ f.format = .FRAME_FORMAT_OPUS)
    (hmatch : ∀ as_, s.m_audioStream = some as_ →
      as_.codec.codec_id = frameFormat2AudioCodecID f.format) :
    (f.audio.isRtpPacket = true →
      getHeaderLength f.payload ≤ f.payload.length →
      ∃ s', onFrame a f s = some s' ∧
        s'.m_audioQueue
          = s.m_audioQueue ++ [f.payload.drop (getHeaderLength f.payload)] ∧
        (f.payload.drop (getHeaderLength f.payload)).length
          = f.payload.length - getHeaderLength f.payload) ∧
    (f.audio.isRtpPacket = true → f.payload.length < getHeaderLength f.payload →
      onFrame a f s = none) ∧
    (f.audio.isRtpPacket = false →
      ∃ s', onFrame a f s = some s' ∧ s'.m_audioQueue = s.m_audioQueue ++ [f.payload]) := by
  have key : ∃ s1 : State, s1.m_audioQueue = s.m_audioQueue ∧
      onFrame a f s = enqueueAudio f s1 := by
    rcases hv : s.m_videoStream with _ | vs <;>
      rcases ha : s.m_audioStream with _ | as_
    · exact ⟨s, rfl, by rcases hf with hf | hf <;> simp [onFrame, hs, hf, hv, ha]⟩
    · have hcid := hmatch as_ ha
      refine ⟨s, rfl, ?_⟩
      rcases hf with hf | hf <;> rw [hf] at hcid <;>
        simp [onFrame, hs, hf, hv, ha, hcid]
    · rcases a with _ | _
      · refine ⟨{ s with m_status := .Context_ERROR }, rfl, ?_⟩
        rcases hf with hf | hf <;> simp [onFrame, addAudioStream, hs, hf, hv, ha]
      · refine ⟨{ (addAudioStream true (frameFormat2AudioCodecID f.format)
            f.audio.channels f.audio.sampleRate s).1 with m_audioFrameFormat := f.format },
            by simp [addAudioStream], ?_⟩
        rcases hf with hf | hf <;> simp [onFrame, addAudioStream, hs, hf, hv, ha]
    · have hcid := hmatch as_ ha
      refine ⟨s, rfl, ?_⟩
      rcases hf with hf | hf <;> rw [hf] at hcid <;>
        simp [onFrame, hs, hf, hv, ha, hcid]
  obtain ⟨s1, hq1, heq⟩ := key
  rw [heq]
  refine ⟨?_, ?_, ?_⟩
  · intro hrtp hle
    refine ⟨{ s1 with m_audioQueue :=
        s1.m_audioQueue ++ [f.payload.drop (getHeaderLength f.payload)] }, ?_, ?_, ?_⟩
    · simp [enqueueAudio, hrtp, hle]
    · simp [hq1]
    · exact List.length_drop _ _
  · intro hrtp hlt
    simp [enqueueAudio, hrtp, Nat.not_le.mpr hlt]
  · intro hrtp
    exact ⟨{ s1 with m_audioQueue := s1.m_audioQueue ++ [f.payload] },
      by simp [enqueueAudio, hrtp], by simp [hq1]⟩

/-- Witness for C5: a PCMU frame with a 12-byte RTP header and 16 payload
bytes, fed to a session whose video stream exists, is enqueued as the
4-byte suffix starting at offset 12. -/
theorem rtp_strip_correct_witness :
    sVP8.m_status ≠ .Context_ERROR ∧
    (∃ s', onFrame true aFrameRtp sVP8 = some s' ∧
      s'.m_audioQueue
        = sVP8.m_audioQueue ++ [aFrameRtp.payload.drop (getHeaderLength aFrameRtp.payload)] ∧
      (aFrameRtp.payload.drop (getHeaderLength aFrameRtp.payload)).length
        = aFrameRtp.payload.length - getHeaderLength aFrameRtp.payload) :=
  ⟨by decide,
   (rtp_strip_correct true aFrameRtp sVP8 (by decide) (Or.inl rfl)
      (by intro as_ h
          rw [show sVP8.m_audioStream = none from rfl] at h
          exact Option.noConfusion h)).1
     rfl (by decide)⟩

/-- Claim C10: an audio frame arriving while the session is healthy but no
video stream (hence no audio stream) exists creates no audio stream, yet
is not discarded: its payload — RTP-stripped when flagged — is appended to
the audio queue, and the session status is unchanged. -/
theorem audio_before_video_enqueued (a : Bool) (f : Frame) (s : State)
    (hs : s.m_status ≠ .Context_ERROR)
    (hv : s.m_videoStream = none)
    (ha : s.m_audioStream = none)
    (hf : f.format = .FRAME_FORMAT_PCMU ∨ f.format = .FRAME_FORMAT_OPUS)
    (hrtp : f.audio.isRtpPacket = true → getHeaderLength f.payload ≤ f.payload.length) :
    ∃ s', onFrame a f s = some s' ∧
      s'.m_audioStream = none ∧ s'.m_videoStream = none ∧
      s'.m_status = s.m_status ∧
      s'.m_audioQueue = s.m_audioQueue ++
        [if f.audio.isRtpPacket = true then f.payload.drop (getHeaderLength f.payload)
         else f.payload] := by
  have heq : onFrame a f s = enqueueAudio f s := by
    rcases hf with hf | hf <;> simp [onFrame, hs, hf, hv, ha]
  rw [heq]
  rcases hr : f.audio.isRtpPacket with _ | _
  · refine ⟨{ s with m_audioQueue := s.m_audioQueue ++ [f.payload] },
      by simp [enqueueAudio, hr], by simp [ha], by simp [hv], rfl, by simp [hr]⟩
  · have hle := hrtp hr
    refine ⟨{ s with m_audioQueue :=
        s.m_audioQueue ++ [f.payload.drop (getHeaderLength f.payload)] },
      by simp [enqueueAudio, hr, hle], by simp [ha], by simp [hv], rfl, by simp [hr]⟩

/-- Witness for C10: a PCMU frame fed to the fresh session is enqueued
onto the audio queue even though no stream exists yet. -/
theorem audio_before_video_enqueued_witness :
    (initState false).m_videoStream = none ∧
    (∃ s', onFrame true aFramePCMU (initState false) = some s' ∧
      s'.m_audioStream = none ∧ s'.m_videoStream = none ∧
      s'.m_status = (initState false).m_status ∧
      s'.m_audioQueue = (initState false).m_audioQueue ++
        [if aFramePCMU.audio.isRtpPacket = true
         then aFramePCMU.payload.drop (getHeaderLength aFramePCMU.payload)
         else aFramePCMU.payload]) :=
  ⟨rfl,
   audio_before_video_enqueued true aFramePCMU (initState false)
     (by decide) rfl rfl (Or.inl rfl) (by intro h; exact absurd h (by decide))⟩

/-! ### Claims about `onTimeout`, `close` and the container writer -/

/-- Claim C8: a timer tick that starts in the terminal error state emits
exactly one fatal notification to the event collaborator, writes no
packets, drains no queue, and leaves the state unchanged (no recovery
path). -/
theorem onTimeout_error_notifies_once (o h : Bool) (s : State)
    (hs : s.m_status = .Context_ERROR) :
    onTimeout o h s
      = (s, [Event.notifyAsyncEvent "RecordingStream" "context initialization failed"]) := by
  simp [onTimeout, hs]

/-- Witness for C8 on a concrete errored session. -/
theorem onTimeout_error_notifies_once_witness :
    errState.m_status = .Context_ERROR ∧
    onTimeout true true errState
      = (errState,
         [Event.notifyAsyncEvent "RecordingStream" "context initialization failed"]) :=
  ⟨by decide, onTimeout_error_notifies_once true true errState (by decide)⟩

/-- Claim C3 counterexample: the container writer does not recompute the
packet's stream index from the stream descriptor.  For a video stream
descriptor whose container index is 1, the emitted packet is still tagged
with stream index 0, so the tag does not reflect the descriptor. -/
theorem stream_index_not_from_descriptor :
    (writeVideoFrame oddStream sampleEncoded).stream_index ≠ oddStream.index := by
  decide

/-- Claim C3 amended: the packet's stream index is hard-coded — 0 for
every video packet and 1 for every audio packet, regardless of the stream
descriptor's index.  (This coincides with actual creation order only
because the session always creates the video stream first.) -/
theorem stream_index_hard_coded (vs as_ : AVStream) (f g : EncodedFrame) :
    (writeVideoFrame vs f).stream_index = 0 ∧ (writeAudioFrame as_ g).stream_index = 1 :=
  ⟨rfl, rfl⟩

/-- Claim C4 fails on the code: after a first `close` of a ready session
(which wrote the trailer, closed both codecs, closed the sink and freed
the context), a second `close` is not a no-op — it re-invokes the codec
close on both stream pointers, which the first call never nulled (and
whose targets were freed with the context): a duplicate resource release.
The trailer, sink close and context release are correctly guarded and not
repeated. -/
theorem double_close_repeats_codec_close :
    (close sReady).2.count (Event.codecClose true) = 1 ∧
    (close (close sReady).1).2
      = [Event.timerStop, Event.codecClose true, Event.codecClose false] ∧
    Event.writeTrailer ∉ (close (close sReady).1).2 := by
  decide

end woogeen_base

namespace mcu

/-- Claim C9: constructing a slot adapter bound to slot `s` calls
`activateInput(s)` on the compositor exactly once, destroying it calls
`deActivateInput(s)` exactly once, and a lifetime with no `onFrame` call
produces exactly the two-call trace with no `pushInput` between them. -/
theorem slot_lifecycle (slot : Int) :
    (construct slot).2.count (CompositorCall.activateInput slot) = 1 ∧
    (destruct (construct slot).1).count (CompositorCall.deActivateInput slot) = 1 ∧
    lifetime slot 0
      = [CompositorCall.activateInput slot, CompositorCall.deActivateInput slot] ∧
    CompositorCall.pushInput slot ∉ lifetime slot 0 := by
  refine ⟨?_, ?_, ?_, ?_⟩ <;>
    simp [construct, destruct, lifetime, onFrameCalls, List.count_cons]

end mcu

namespace woogeen_base

theorem enqueueAudio_some {f : Frame} {x y : State} (h : enqueueAudio f x = some y) :
    y.m_videoStream = x.m_videoStream ∧ y.m_audioStream = x.m_audioStream ∧
    y.m_status = x.m_status := by
  simp only [enqueueAudio] at h
  split at h
  · split at h
    · cases h; exact ⟨rfl, rfl, rfl⟩
    · cases h
  · cases h; exact ⟨rfl, rfl, rfl⟩

theorem onFrame_shape {a : Bool} {f : Frame} {s s' : State}
    (h : onFrame a f s = some s') :
    (s'.m_status = s.m_status ∨ s'.m_status = .Context_ERROR) ∧
    (s'.m_videoStream = s.m_videoStream ∨ s.m_videoStream = none) ∧
    (s'.m_audioStream = s.m_audioStream ∨
      (s'.m_videoStream = s.m_videoStream ∧ s.m_videoStream.isSome = true)) := by
  by_cases hs : s.m_status = .Context_ERROR
  · unfold onFrame at h
    rw [if_pos hs] at h
    cases h
    exact ⟨Or.inl rfl, Or.inl rfl, Or.inl rfl⟩
  · rcases f with ⟨fmt, payload, video, audio⟩
    rcases fmt <;> simp only [onFrame, hs, if_false, reduceIte] at h
    next =>
      cases h; exact ⟨Or.inr rfl, Or.inl rfl, Or.inl rfl⟩
    next =>
      cases h; exact ⟨Or.inr rfl, Or.inl rfl, Or.inl rfl⟩
    next =>
      split at h
      · split at h
        · rcases a with _ | _ <;> simp only [addVideoStream] at h <;> cases h <;>
            rename_i hv _ <;> refine ⟨?_, ?_, ?_⟩ <;> simp [hv]
        · cases h; exact ⟨Or.inl rfl, Or.inl rfl, Or.inl rfl⟩
      · split at h <;> cases h
        · exact ⟨Or.inr rfl, Or.inl rfl, Or.inl rfl⟩
        · exact ⟨Or.inl rfl, Or.inl rfl, Or.inl rfl⟩
    next =>
      split at h
      · split at h
        · rcases a with _ | _ <;> simp only [addVideoStream] at h <;> cases h <;>
            rename_i hv _ <;> refine ⟨?_, ?_, ?_⟩ <;> simp [hv]
        · cases h; exact ⟨Or.inl rfl, Or.inl rfl, Or.inl rfl⟩
      · split at h <;> cases h
        · exact ⟨Or.inr rfl, Or.inl rfl, Or.inl rfl⟩
        · exact ⟨Or.inl rfl, Or.inl rfl, Or.inl rfl⟩
    next =>
      split at h
      · rename_i hcond
        have hv : s.m_videoStream.isSome = true := by
          simp at hcond; exact hcond.1
        have hva := enqueueAudio_some h
        rcases a with _ | _ <;> simp only [addAudioStream] at hva <;>
          refine ⟨?_, ?_, ?_⟩ <;> simp_all
      · split at h
        · split at h
          · cases h; exact ⟨Or.inr rfl, Or.inl rfl, Or.inl rfl⟩
          · have hva := enqueueAudio_some h
            exact ⟨Or.inl hva.2.2, Or.inl hva.1, Or.inl hva.2.1⟩
        · have hva := enqueueAudio_some h
          exact ⟨Or.inl hva.2.2, Or.inl hva.1, Or.inl hva.2.1⟩
    next =>
      split at h
      · rename_i hcond
        have hv : s.m_videoStream.isSome = true := by
          simp at hcond; exact hcond.1
        have hva := enqueueAudio_some h
        rcases a with _ | _ <;> simp only [addAudioStream] at hva <;>
          refine ⟨?_, ?_, ?_⟩ <;> simp_all
      · split at h
        · split at h
          · cases h; exact ⟨Or.inr rfl, Or.inl rfl, Or.inl rfl⟩
          · have hva := enqueueAudio_some h
            exact ⟨Or.inl hva.2.2, Or.inl hva.1, Or.inl hva.2.1⟩
        · have hva := enqueueAudio_some h
          exact ⟨Or.inl hva.2.2, Or.inl hva.1, Or.inl hva.2.1⟩


theorem headerWrites_append (l1 l2 : List Event) :
    headerWrites (l1 ++ l2) = headerWrites l1 + headerWrites l2 :=
  List.countP_append _ _ _

theorem headerWrites_drain (s : State) : headerWrites (drainEvents s) = 0 := by
  simp [headerWrites, drainEvents, List.countP_append, List.countP_map, Function.comp]

theorem onTimeout_fst_videoStream (o hh : Bool) (s : State) :
    (onTimeout o hh s).1.m_videoStream = s.m_videoStream := by
  unfold onTimeout
  dsimp only []
  repeat' split
  all_goals rfl

theorem onTimeout_fst_audioStream (o hh : Bool) (s : State) :
    (onTimeout o hh s).1.m_audioStream = s.m_audioStream := by
  unfold onTimeout
  dsimp only []
  repeat' split
  all_goals rfl

theorem onTimeout_headerWrites_le (o hh : Bool) (s : State) :
    headerWrites (onTimeout o hh s).2 ≤ 1 := by
  unfold onTimeout
  dsimp only []
  repeat' split
  all_goals try dsimp only []
  all_goals
    first
      | decide
      | (rw [headerWrites_append, headerWrites_append, headerWrites_drain]; decide)
      | (simp [headerWrites_drain])

theorem onTimeout_headerWrites_of_ne (o hh : Bool) (s : State)
    (hn : s.m_status ≠ .Context_EMPTY) :
    headerWrites (onTimeout o hh s).2 = 0 := by
  unfold onTimeout
  dsimp only []
  split
  · rename_i heq; exact absurd heq hn
  · exact headerWrites_drain s
  · rfl


theorem onTimeout_status_of_ne (o hh : Bool) (s : State)
    (hn : s.m_status ≠ .Context_EMPTY) :
    (onTimeout o hh s).1.m_status ≠ .Context_EMPTY := by
  unfold onTimeout
  dsimp only []
  split
  · rename_i heq; exact absurd heq hn
  · exact hn
  · exact hn

theorem onTimeout_headerWrites_of_empty (o hh : Bool) (s : State)
    (hE : (onTimeout o hh s).1.m_status = .Context_EMPTY) :
    headerWrites (onTimeout o hh s).2 = 0 := by
  revert hE
  unfold onTimeout
  dsimp only []
  repeat' split
  all_goals try dsimp only []
  all_goals intro hE
  all_goals
    first
      | rfl
      | (exact headerWrites_drain s)
      | (exact absurd hE (by decide))

theorem close_fst (s : State) :
    ((close s).1.m_videoStream = s.m_videoStream) ∧
    ((close s).1.m_audioStream = s.m_audioStream) ∧
    ((close s).1.m_status = s.m_status) :=
  ⟨rfl, rfl, rfl⟩

theorem close_headerWrites (s : State) : headerWrites (close s).2 = 0 := by
  unfold close
  dsimp only []
  repeat' split
  all_goals decide

theorem runStep_shape {st : Step} {s s1 : State} {evs : List Event}
    (h : runStep st s = some (s1, evs)) :
    (headerWrites evs ≤ 1) ∧
    (s.m_status ≠ .Context_EMPTY → headerWrites evs = 0 ∧ s1.m_status ≠ .Context_EMPTY) ∧
    (s1.m_status = .Context_EMPTY → headerWrites evs = 0) ∧
    ((s.m_audioStream.isSome = true → s.m_videoStream.isSome = true) →
      (s1.m_audioStream.isSome = true → s1.m_videoStream.isSome = true)) := by
  rcases st with ⟨a, f⟩ | ⟨o, hh⟩ | _
  · -- frame step
    simp only [runStep] at h
    rcases ho : onFrame a f s with _ | s0 <;> rw [ho] at h
    · exact absurd h (by simp)
    · rw [Option.map_some'] at h
      injection h with h1
      injection h1 with h2 h3
      subst h2; subst h3
      obtain ⟨hstat, hvid, haud⟩ := onFrame_shape ho
      refine ⟨by decide, ?_, ?_, ?_⟩
      · intro hne
        refine ⟨rfl, ?_⟩
        rcases hstat with h1 | h1 <;> rw [h1]
        · exact hne
        · simp
      · intro _; rfl
      · intro hinv h1
        rcases haud with h2 | h2
        · rw [h2] at h1
          rcases hvid with h3 | h3
          · rw [h3]; exact hinv h1
          · rw [h3] at hinv
            exact absurd (hinv h1) (by simp)
        · rw [h2.1]; exact h2.2
  · -- tick step
    simp only [runStep] at h
    injection h with h1
    have e1 : (onTimeout o hh s).1 = s1 := by rw [h1]
    have e2 : (onTimeout o hh s).2 = evs := by rw [h1]
    subst e1; subst e2
    refine ⟨onTimeout_headerWrites_le o hh s,
      fun hn => ⟨onTimeout_headerWrites_of_ne o hh s hn, onTimeout_status_of_ne o hh s hn⟩,
      onTimeout_headerWrites_of_empty o hh s, ?_⟩
    intro hinv h1
    rw [onTimeout_fst_videoStream]
    rw [onTimeout_fst_audioStream] at h1
    exact hinv h1
  · -- close step
    simp only [runStep] at h
    injection h with h1
    have e1 : (close s).1 = s1 := by rw [h1]
    have e2 : (close s).2 = evs := by rw [h1]
    subst e1; subst e2
    obtain ⟨hv, ha, hst⟩ := close_fst s
    refine ⟨by rw [close_headerWrites]; decide,
      fun hn => ⟨close_headerWrites s, by rw [hst]; exact hn⟩,
      fun _ => close_headerWrites s, ?_⟩
    intro hinv h1
    rw [hv]; rw [ha] at h1
    exact hinv h1

theorem run_shape : ∀ (ss : List Step) (s s2 : State) (evs : List Event),
    run ss s = some (s2, evs) →
    (headerWrites evs ≤ 1) ∧
    (s.m_status ≠ .Context_EMPTY → headerWrites evs = 0) ∧
    ((s.m_audioStream.isSome = true → s.m_videoStream.isSome = true) →
      (s2.m_audioStream.isSome = true → s2.m_videoStream.isSome = true)) := by
  intro ss
  induction ss with
  | nil =>
    intro s s2 evs h
    simp only [run] at h
    injection h with h1
    injection h1 with h2 h3
    subst h2; subst h3
    exact ⟨by decide, fun _ => rfl, fun hinv => hinv⟩
  | cons st rest ih =>
    intro s s2 evs h
    simp only [run] at h
    split at h
    · exact absurd h (by simp)
    · rename_i sm evs1 hp
      split at h
      · exact absurd h (by simp)
      · rename_i sr evs2 hq
        injection h with h1
        injection h1 with h2 h3
        subst h2; subst h3
        obtain ⟨hle1, hne1, hemp1, hinv1⟩ := runStep_shape hp
        obtain ⟨hle2, hne2, hinv2⟩ := ih sm sr evs2 hq
        rw [headerWrites_append]
        refine ⟨?_, ?_, ?_⟩
        · by_cases hE : sm.m_status = .Context_EMPTY
          · rw [hemp1 hE]; simpa using hle2
          · rw [hne2 hE]; simpa using hle1
        · intro hn
          obtain ⟨h1, h2⟩ := hne1 hn
          rw [h1, hne2 h2]
        · intro hinv
          exact hinv2 (hinv1 hinv)

/-- Claim C2: across every sequence of steps of a session (frames, timer
ticks, close calls) the container header is written at most once; a tick
attempts the header write only when both the video and the audio stream
already exist; and in the tick where the header write succeeds the
trailer-needed flag is set and the status moves from `Context_EMPTY` to
`Context_READY`. -/
theorem header_written_at_most_once :
    (∀ (nofile : Bool) (ss : List Step) (s : State) (evs : List Event),
      run ss (initState nofile) = some (s, evs) → headerWrites evs ≤ 1) ∧
    (∀ (o hh : Bool) (s s' : State) (evs : List Event),
      onTimeout o hh s = (s', evs) →
      (∃ b, Event.writeHeaderCall b ∈ evs) →
      s.m_videoStream.isSome = true ∧ s.m_audioStream.isSome = true) ∧
    (∀ (o hh : Bool) (s s' : State) (evs : List Event),
      onTimeout o hh s = (s', evs) →
      Event.writeHeaderCall true ∈ evs →
      s.m_status = .Context_EMPTY ∧ s'.m_avTrailerNeeded = true ∧
        s'.m_status = .Context_READY) := by
  refine ⟨?_, ?_, ?_⟩
  · intro nofile ss s evs h
    exact (run_shape ss (initState nofile) s evs h).1
  · intro o hh s s' evs heq hb
    obtain ⟨b, hb⟩ := hb
    unfold onTimeout at heq
    dsimp only [] at heq
    split at heq
    · rename_i hst
      split at heq
      · rename_i hcond
        have := Bool.and_eq_true _ _ ▸ hcond
        exact ⟨this.2, this.1⟩
      · injection heq with h1 h2
        subst h2
        simp at hb
    · injection heq with h1 h2
      subst h2
      simp [drainEvents] at hb
    · injection heq with h1 h2
      subst h2
      simp at hb
  · intro o hh s s' evs heq hb
    unfold onTimeout at heq
    dsimp only [] at heq
    split at heq
    · rename_i hst
      split at heq
      · split at heq
        · injection heq with h1 h2
          subst h2
          simp at hb
        · split at heq
          · injection heq with h1 h2
            subst h2
            rcases hnf : s.nofile <;> simp only [hnf] at hb <;> simp at hb
          · injection heq with h1 h2
            subst h1; subst h2
            exact ⟨hst, rfl, rfl⟩
      · injection heq with h1 h2
        subst h2
        simp at hb
    · injection heq with h1 h2
      subst h2
      simp [drainEvents] at hb
    · injection heq with h1 h2
      subst h2
      simp at hb

/-- Witness for C2: a concrete run with two successful ticks performs
exactly one header write, and the successful tick of `sBoth` (both
streams present, status empty) sets the trailer flag and reaches
`Context_READY`. -/
theorem header_written_at_most_once_witness :
    (run stepsW (initState false) = some (runW.1, runW.2) ∧ headerWrites runW.2 ≤ 1) ∧
    (sBoth.m_videoStream.isSome = true ∧ sBoth.m_audioStream.isSome = true) ∧
    (sBoth.m_status = .Context_EMPTY ∧ sReady.m_avTrailerNeeded = true ∧
      sReady.m_status = .Context_READY) :=
  ⟨⟨by decide, (header_written_at_most_once).1 false stepsW runW.1 runW.2 (by decide)⟩,
   (header_written_at_most_once).2.1 true true sBoth sReady (onTimeout true true sBoth).2
     rfl ⟨true, by decide⟩,
   (header_written_at_most_once).2.2 true true sBoth sReady (onTimeout true true sBoth).2
     rfl (by decide)⟩

/-- Claim C6: an audio frame arriving while no video stream exists never
creates an audio stream, and consequently in every session state
reachable from the constructor state, an existing audio stream implies an
existing video stream (video is always created first). -/
theorem audio_requires_video_invariant :
    (∀ (a : Bool) (f : Frame) (s s' : State),
      s.m_videoStream = none →
      (f.format = .FRAME_FORMAT_PCMU ∨ f.format = .FRAME_FORMAT_OPUS) →
      onFrame a f s = some s' → s'.m_audioStream = s.m_audioStream) ∧
    (∀ (nofile : Bool) (s : State), ReachableFrom nofile s →
      s.m_audioStream.isSome = true → s.m_videoStream.isSome = true) := by
  constructor
  · intro a f s s' hv _ h
    obtain ⟨_, _, haud⟩ := onFrame_shape h
    rcases haud with h2 | h2
    · exact h2
    · rw [hv] at h2
      exact absurd h2.2 (by simp)
  · rintro nofile s ⟨ss, evs, h⟩ ha
    refine (run_shape ss (initState nofile) s evs h).2.2 ?_ ha
    intro h0
    simp [initState] at h0

/-- Witness for C6: a PCMU frame into the fresh session leaves the audio
stream absent, and the reachable state `sBoth` with an audio stream also
has a video stream. -/
theorem audio_requires_video_invariant_witness :
    ((initState false).m_videoStream = none ∧
      onFrame true aFramePCMU (initState false) = some sAud ∧
      sAud.m_audioStream = (initState false).m_audioStream) ∧
    (sBoth.m_audioStream.isSome = true ∧ sBoth.m_videoStream.isSome = true) :=
  ⟨⟨rfl, by decide,
    (audio_requires_video_invariant).1 true aFramePCMU (initState false) sAud rfl
      (Or.inl rfl) (by decide)⟩,
   ⟨by decide,
    (audio_requires_video_invariant).2 false sBoth
      ⟨[.frame true vFrameVP8, .frame true aFramePCMU], [], by decide⟩ (by decide)⟩⟩

end woogeen_base
